import Mathlib

/-!
# Verification of the ytpldl background-job lifecycle core

Shallow embedding of `yt_playlist_downloader` (files `cli.py`,
`downloader.py`, `worker.py`) and proofs about its background-job
lifecycle: the Job Descriptor Store (pid file), the process liveness
check, the background launcher, the log tail follower, the job
canceller, and the playlist range computation.

Filesystem state relevant to the claims is the single pid file
`logs/background.pid`; it is modelled as an optional string (`none` =
file absent).  Python's `str`/`int` conversions on the pid are embedded
as explicit decimal printing/parsing on character lists.
-/

/-- One decimal digit as a character, `digitChar d = Char.ofNat (48 + d)`
(the character Python's `str` emits for digit `d`). -/
def digitChar (d : Nat) : Char := Char.ofNat (48 + d)

/-- Fuel-indexed decimal printing of a natural number, most significant
digit first; mirrors `str(n)` for `n : Nat`.  The fuel is only there to
make the recursion structural; `natToChars` supplies enough. -/
def natToCharsAux : Nat → Nat → List Char
  | 0, _ => []
  | fuel + 1, n =>
      if n < 10 then [digitChar n]
      else natToCharsAux fuel (n / 10) ++ [digitChar (n % 10)]

/-- Decimal representation of a natural number, as `str` produces it. -/
def natToChars (n : Nat) : List Char := natToCharsAux (n + 1) n

/-- Decimal representation of an integer: embedding of Python `str(pid)`
for an `int` pid (optional leading minus sign, then digits). -/
def intToChars (i : Int) : List Char :=
  if i < 0 then '-' :: natToChars i.natAbs else natToChars i.toNat

/-- Embedding of Python `str(pid)` producing a Lean `String`. -/
def pyStr (i : Int) : String := ⟨intToChars i⟩

/-- A character's digit value if it is `'0'`–`'9'`, else `none`. -/
def charDigit (c : Char) : Option Nat :=
  if 48 ≤ c.toNat ∧ c.toNat ≤ 57 then some (c.toNat - 48) else none

/-- Accumulator-style parse of a digit string, `none` on the first
non-digit character. -/
def parseDigitsAux (acc : Nat) : List Char → Option Nat
  | [] => some acc
  | c :: cs =>
      match charDigit c with
      | some d => parseDigitsAux (acc * 10 + d) cs
      | none => none

/-- Parse a nonempty all-digit string; empty input fails, as `int("")`
does. -/
def parseDigits (l : List Char) : Option Nat :=
  if l = [] then none else parseDigitsAux 0 l

/-- The whitespace characters stripped by Python's `str.strip()`
(restricted to the ASCII ones, which cover everything this program ever
writes). -/
def isPySpace (c : Char) : Bool :=
  c = ' ' || c = '\t' || c = '\n' || c = '\x0d' || c = '\x0b' || c = '\x0c'

/-- Embedding of `str.strip()`: drop whitespace from both ends. -/
def pyStrip (l : List Char) : List Char :=
  ((l.dropWhile isPySpace).reverse.dropWhile isPySpace).reverse

/-- Embedding of Python `int(s.strip())` on a character list: strip
whitespace, accept an optional single sign, then a nonempty run of
digits; anything else raises `ValueError`, modelled as `none`. -/
def pyInt (l : List Char) : Option Int :=
  match pyStrip l with
  | [] => none
  | c :: rest =>
      if c = '-' then (parseDigits rest).map (fun n : Nat => -(n : Int))
      else if c = '+' then (parseDigits rest).map (fun n : Nat => (n : Int))
      else (parseDigits (c :: rest)).map (fun n : Nat => (n : Int))

/-- Version of `pyInt` on a Lean `String`. -/
def pyIntS (s : String) : Option Int := pyInt s.data

/-- The Job Descriptor Store: state of the single pid file
`logs/background.pid`.  `file = none` means the file does not exist;
`file = some c` means it exists with contents `c`. -/
structure PidStore where
  file : Option String
deriving Repr, DecidableEq

/-- Embeds `cli.py` lines 16–19: write `str(pid)` as the file's entire
contents, creating the directory as needed (directory creation has no
observable effect in this model). -/
def _save_background_pid (pid : Int) (_s : PidStore) : PidStore :=
  { file := some (pyStr pid) }

/-- Embeds `cli.py` lines 22–29: return `none` if the file is missing or its
contents do not parse as an integer (`ValueError`/`OSError` are caught),
else the parsed pid. -/
def _load_background_pid (s : PidStore) : Option Int :=
  match s.file with
  | none => none
  | some c => pyIntS c

/-- Embeds `cli.py` lines 32–46: missing file is a no-op; with an
`expected_pid`, a readable file holding a different pid is left alone,
while a parse/read failure falls through (`except ... pass`) and the
file is removed; otherwise the file is removed. -/
def _clear_background_pid (expected_pid : Option Int) (s : PidStore) : PidStore :=
  match s.file with
  | none => s
  | some c =>
      match expected_pid with
      | none => { file := none }
      | some p =>
          match pyIntS c with
          | some current_pid => if current_pid ≠ p then s else { file := none }
          | none => { file := none }

/-! ## Decimal round-trip lemmas -/

theorem parseDigitsAux_append (acc : Nat) (xs ys : List Char) :
    parseDigitsAux acc (xs ++ ys) =
      match parseDigitsAux acc xs with
      | some a => parseDigitsAux a ys
      | none => none := by
  induction xs generalizing acc with
  | nil => simp [parseDigitsAux]
  | cons c cs ih =>
      simp only [List.cons_append, parseDigitsAux]
      cases charDigit c with
      | none => simp
      | some d => simp [ih]

theorem charDigit_digitChar {d : Nat} (hd : d < 10) :
    charDigit (digitChar d) = some d := by
  interval_cases d <;> decide

theorem natToCharsAux_ne_nil (fuel n : Nat) (h : n < fuel) :
    natToCharsAux fuel n ≠ [] := by
  cases fuel with
  | zero => omega
  | succ m =>
      simp only [natToCharsAux]
      split
      · simp
      · simp

theorem natToCharsAux_mem (fuel n : Nat) (h : n < fuel) :
    ∀ c ∈ natToCharsAux fuel n, ∃ d, d < 10 ∧ c = digitChar d := by
  induction fuel generalizing n with
  | zero => omega
  | succ m ih =>
      intro c hc
      simp only [natToCharsAux] at hc
      by_cases hn : n < 10
      · simp [hn] at hc
        exact ⟨n, hn, hc⟩
      · simp [hn] at hc
        rcases hc with hc | hc
        · have hdiv : n / 10 < m := by
            have h1 : n / 10 < n := Nat.div_lt_self (by omega) (by omega)
            omega
          exact ih (n / 10) hdiv c hc
        · exact ⟨n % 10, Nat.mod_lt _ (by omega), hc⟩

theorem parseDigitsAux_natToCharsAux (fuel : Nat) :
    ∀ n acc, n < fuel →
      parseDigitsAux acc (natToCharsAux fuel n) =
        some (acc * 10 ^ (natToCharsAux fuel n).length + n) := by
  induction fuel with
  | zero => intro n acc h; omega
  | succ m ih =>
      intro n acc h
      by_cases hn : n < 10
      · simp only [natToCharsAux, if_pos hn]
        simp [parseDigitsAux, charDigit_digitChar hn]
      · have hdiv : n / 10 < m := by
          have h1 : n / 10 < n := Nat.div_lt_self (by omega) (by omega)
          omega
        simp only [natToCharsAux, if_neg hn]
        rw [parseDigitsAux_append]
        rw [ih (n / 10) acc hdiv]
        have hmod : n % 10 < 10 := Nat.mod_lt _ (by omega)
        simp only [parseDigitsAux, charDigit_digitChar hmod]
        simp only [List.length_append, List.length_singleton]
        congr 1
        have h1 : (acc * 10 ^ (natToCharsAux m (n / 10)).length + n / 10) * 10 + n % 10 =
            acc * (10 ^ (natToCharsAux m (n / 10)).length * 10) + (n / 10 * 10 + n % 10) := by
          ring
        have h2 : n / 10 * 10 + n % 10 = n := by omega
        rw [h1, h2, pow_succ]

theorem parseDigits_natToChars (n : Nat) :
    parseDigits (natToChars n) = some n := by
  unfold parseDigits natToChars
  rw [if_neg (natToCharsAux_ne_nil (n + 1) n (by omega))]
  have := parseDigitsAux_natToCharsAux (n + 1) n 0 (by omega)
  simpa using this

theorem dropWhile_eq_self_of_head {p : Char → Bool} :
    ∀ l : List Char, (∀ c ∈ l, p c = false) → l.dropWhile p = l := by
  intro l hl
  cases l with
  | nil => rfl
  | cons c cs =>
      rw [List.dropWhile_cons_of_neg]
      simp [hl c (List.mem_cons_self c cs)]

theorem isPySpace_digitChar {d : Nat} (hd : d < 10) :
    isPySpace (digitChar d) = false := by
  interval_cases d <;> decide

theorem pyStrip_eq_self (l : List Char) (hl : ∀ c ∈ l, isPySpace c = false) :
    pyStrip l = l := by
  unfold pyStrip
  rw [dropWhile_eq_self_of_head l hl]
  rw [dropWhile_eq_self_of_head l.reverse (by intro c hc; exact hl c (List.mem_reverse.mp hc))]
  exact List.reverse_reverse l

theorem natToChars_not_space (n : Nat) :
    ∀ c ∈ natToChars n, isPySpace c = false := by
  intro c hc
  obtain ⟨d, hd, rfl⟩ := natToCharsAux_mem (n + 1) n (by omega) c hc
  exact isPySpace_digitChar hd

theorem natToChars_head_digit (n : Nat) :
    ∀ c cs, natToChars n = c :: cs → ∃ d, d < 10 ∧ c = digitChar d := by
  intro c cs h
  have hmem : c ∈ natToChars n := by rw [h]; exact List.mem_cons_self c cs
  exact natToCharsAux_mem (n + 1) n (by omega) c hmem

theorem digitChar_ne_minus {d : Nat} (hd : d < 10) : digitChar d ≠ '-' := by
  interval_cases d <;> decide

theorem digitChar_ne_plus {d : Nat} (hd : d < 10) : digitChar d ≠ '+' := by
  interval_cases d <;> decide

theorem pyInt_of_strip_cons (l : List Char) (c : Char) (rest : List Char)
    (h : pyStrip l = c :: rest) :
    pyInt l =
      if c = '-' then (parseDigits rest).map (fun n : Nat => -(n : Int))
      else if c = '+' then (parseDigits rest).map (fun n : Nat => (n : Int))
      else (parseDigits (c :: rest)).map (fun n : Nat => (n : Int)) := by
  unfold pyInt
  rw [h]

/-- Round-trip: Python `int(str(i).strip())` recovers any integer `i`. -/
theorem pyInt_intToChars (i : Int) : pyInt (intToChars i) = some i := by
  by_cases hi : i < 0
  · have hchars : intToChars i = '-' :: natToChars i.natAbs := by
      unfold intToChars; rw [if_pos hi]
    have hstrip : pyStrip ('-' :: natToChars i.natAbs) = '-' :: natToChars i.natAbs := by
      apply pyStrip_eq_self
      intro c hc
      rcases List.mem_cons.mp hc with rfl | hc
      · decide
      · exact natToChars_not_space _ c hc
    rw [hchars, pyInt_of_strip_cons _ _ _ hstrip, if_pos rfl, parseDigits_natToChars]
    simp only [Option.map_some']
    congr 1
    omega
  · have hchars : intToChars i = natToChars i.toNat := by
      unfold intToChars; rw [if_neg hi]
    have hstrip : pyStrip (natToChars i.toNat) = natToChars i.toNat :=
      pyStrip_eq_self _ (natToChars_not_space _)
    cases hrep : natToChars i.toNat with
    | nil => exact absurd hrep (natToCharsAux_ne_nil _ _ (by omega))
    | cons c cs =>
        obtain ⟨d, hd, rfl⟩ := natToChars_head_digit _ c cs hrep
        rw [hchars, pyInt_of_strip_cons _ _ _ (by rw [hrep] at hstrip ⊢; exact hstrip)]
        rw [if_neg (digitChar_ne_minus hd), if_neg (digitChar_ne_plus hd)]
        rw [← hrep, parseDigits_natToChars]
        simp only [Option.map_some']
        congr 1
        omega

/-- Round-trip on strings: `pyIntS (pyStr i) = some i`. -/
theorem pyIntS_pyStr (i : Int) : pyIntS (pyStr i) = some i := by
  unfold pyIntS pyStr
  exact pyInt_intToChars i

/-! ## Process liveness checker -/

/-- Outcome of the zero-signal probe `os.kill(pid, 0)` performed by the
operating system for a given pid. -/
inductive ProbeResult where
  | ok : ProbeResult
  | noSuchProcess : ProbeResult
  | permissionDenied : ProbeResult
deriving Repr, DecidableEq

/-- Embeds `cli.py` lines 49–57: `ProcessLookupError` means dead,
`PermissionError` means alive (exists but not signalable), success means
alive. -/
def _process_alive (probe : ProbeResult) : Bool :=
  match probe with
  | .noSuchProcess => false
  | .permissionDenied => true
  | .ok => true

/-! ## Log tail follower

`cli.py` defines `_stream_background_log` twice: once at lines 237–258
(which clears the descriptor when the worker has exited) and once at
lines 297–317 (which does not).  In Python the later definition rebinds
the name, so the second one is the definition every call site actually
runs.  Both are embedded; `_stream_background_log` is the effective
(second) definition and `_stream_background_log_v1` the shadowed first
one.

Each loop iteration of the follower is driven by one event: what
`log_file.readline()` returned, whether `process.poll()` reported exit,
and (when exited) what the final `log_file.read()` drain returned; a
`KeyboardInterrupt` is its own event.  The follower is modelled as a
function of the (finite) event list. -/

/-- One iteration's worth of observations in the follower loop. -/
inductive FollowEvent where
  /-- The user pressed Ctrl+C during this iteration. -/
  | interrupt : FollowEvent
  /-- The `readline()` call returned a (nonempty) line. -/
  | lineRead : String → FollowEvent
  /-- The `readline()` returned nothing and `poll()` was `None`: the worker
  is still running, so the loop sleeps and retries. -/
  | noLineRunning : FollowEvent
  /-- The `readline()` returned nothing and `poll()` reported an exit code;
  the payload is what the final drain `log_file.read()` returned. -/
  | noLineExited : String → FollowEvent
deriving Repr, DecidableEq

/-- Messages the follower prints to the interactive session. -/
inductive OutMsg where
  /-- A chunk of log content echoed to the session. -/
  | line : String → OutMsg
  /-- The completion notice printed when the worker has exited. -/
  | doneNotice : OutMsg
  /-- The notice printed when the user interrupts following. -/
  | interruptNotice : OutMsg
deriving Repr, DecidableEq

/-- How a (finite) run of the follower ended. -/
inductive FollowOutcome where
  /-- The worker was observed to have exited (terminal `break`). -/
  | finished : FollowOutcome
  /-- A `KeyboardInterrupt` stopped the following. -/
  | interrupted : FollowOutcome
  /-- The supplied event list ran out while the loop was still polling. -/
  | pending : FollowOutcome
deriving Repr, DecidableEq

/-- Result of running the follower: what it printed, the descriptor store
afterwards, every pid it signalled (the source sends no signal anywhere
in the follower, so this records that nothing is ever killed), and how
the run ended. -/
structure FollowResult where
  output : List OutMsg
  store : PidStore
  kills : List Int
  outcome : FollowOutcome
deriving Repr, DecidableEq

/-- Embeds the EFFECTIVE `_stream_background_log`, `cli.py` lines
297–317 (the second definition of that name, which in Python shadows the
first): stream lines; once no line is available and the worker has
exited, drain the remainder, print the completion notice and stop.  This
version never touches the Job Descriptor Store. -/
def _stream_background_log (events : List FollowEvent) (pid : Int) (s : PidStore) :
    FollowResult :=
  match events with
  | [] => ⟨[], s, [], .pending⟩
  | .interrupt :: _ => ⟨[.interruptNotice], s, [], .interrupted⟩
  | .lineRead l :: rest =>
      let r := _stream_background_log rest pid s
      ⟨.line l :: r.output, r.store, r.kills, r.outcome⟩
  | .noLineRunning :: rest => _stream_background_log rest pid s
  | .noLineExited remaining :: _ =>
      ⟨(if remaining = "" then [] else [.line remaining]) ++ [.doneNotice], s, [], .finished⟩

/-- Embeds the SHADOWED first `_stream_background_log`, `cli.py` lines
237–258: identical to the effective one except that on worker exit it
also runs `_clear_background_pid(expected_pid=process.pid)` before
breaking. -/
def _stream_background_log_v1 (events : List FollowEvent) (pid : Int) (s : PidStore) :
    FollowResult :=
  match events with
  | [] => ⟨[], s, [], .pending⟩
  | .interrupt :: _ => ⟨[.interruptNotice], s, [], .interrupted⟩
  | .lineRead l :: rest =>
      let r := _stream_background_log_v1 rest pid s
      ⟨.line l :: r.output, r.store, r.kills, r.outcome⟩
  | .noLineRunning :: rest => _stream_background_log_v1 rest pid s
  | .noLineExited remaining :: _ =>
      ⟨(if remaining = "" then [] else [.line remaining]) ++ [.doneNotice],
        _clear_background_pid (some pid) s, [], .finished⟩

/-! ## Job canceller -/

/-- Outcome of the `os.killpg(pid, SIGTERM)` call, as the operating
system resolves it. -/
inductive KillResult where
  | ok : KillResult
  | noSuchProcess : KillResult
  | permissionDenied : KillResult
deriving Repr, DecidableEq

/-- Messages `cancel_background_download` prints. -/
inductive CancelMsg where
  /-- No pid was entered and none was stored ("Aucune action effectuée."). -/
  | noAction : CancelMsg
  /-- The entered pid failed to parse ("PID invalide."). -/
  | invalidPid : CancelMsg
  /-- No active download with that pid. -/
  | notActive : Int → CancelMsg
  /-- Signalling was forbidden ("Permission refusée..."). -/
  | permissionDenied : CancelMsg
  /-- The download was cancelled. -/
  | cancelled : Int → CancelMsg
  /-- The stray live-follow banner printed by the dead code at
  `cli.py` line 293. -/
  | followBanner : CancelMsg
deriving Repr, DecidableEq

/-- How `cancel_background_download` terminated. -/
inductive CancelExit where
  /-- Returned normally to the menu loop. -/
  | returned : CancelExit
  /-- Raised `NameError`: `cli.py` line 294 references the names
  `background_log` and `proc`, which are not bound in this function or at
  module level, so evaluating the call's arguments raises. -/
  | raisedNameError : CancelExit
deriving Repr, DecidableEq

/-- Result of one cancel interaction: the descriptor store afterwards,
the messages printed, and whether the function returned or raised. -/
structure CancelResult where
  store : PidStore
  msgs : List CancelMsg
  exitKind : CancelExit
deriving Repr, DecidableEq

/-- Embeds `cancel_background_download`, `cli.py` lines 261–294 (the
trailing lines 293–294 belong to this function's body).  `userInput` is
the user's already-stripped reply to the pid prompt (empty = accept the
default); `probe` is the OS answer to the liveness check and `kill` the
OS answer to `os.killpg` (consulted only if reached).  After the
`try/except/else/finally` block that signals and then clears the
descriptor, control falls through to line 293 (a print) and line 294,
whose argument `background_log` is an unbound name, raising `NameError`. -/
def cancel_background_download (s : PidStore) (userInput : String)
    (probe : ProbeResult) (kill : KillResult) : CancelResult :=
  let saved_pid := _load_background_pid s
  let default_display : Option String :=
    match saved_pid with
    | some p => if p ≠ 0 then some (pyStr p) else none
    | none => none
  let raw_pid : String := if userInput ≠ "" then userInput else default_display.getD ""
  if raw_pid = "" then ⟨s, [.noAction], .returned⟩
  else
    match pyIntS raw_pid with
    | none => ⟨s, [.invalidPid], .returned⟩
    | some pid =>
        if _process_alive probe = false then
          ⟨_clear_background_pid (some pid) s, [.notActive pid], .returned⟩
        else
          let msg : CancelMsg :=
            match kill with
            | .noSuchProcess => .notActive pid
            | .permissionDenied => .permissionDenied
            | .ok => .cancelled pid
          ⟨_clear_background_pid (some pid) s, [msg, .followBanner], .raisedNameError⟩

/-! ## Background job launcher -/

/-- Fatal launch failures, `cli.py` lines 190–218: each propagates as an
uncaught exception to the caller. -/
inductive LaunchError where
  | mkdirFailed : LaunchError
  | openLogFailed : LaunchError
  | spawnFailed : LaunchError
deriving Repr, DecidableEq

/-- The OS responses the launcher depends on: whether
`os.makedirs("logs")` succeeds, whether opening `logs/background.log`
for append succeeds, and whether `subprocess.Popen` succeeds (returning
the new worker's pid). -/
structure LaunchEnv where
  mkdirLogs : Except Unit Unit
  openLog : Except Unit Unit
  spawn : Except Unit Int
deriving Repr

/-- Observable side effects of the launcher, in order. -/
inductive LaunchAction where
  /-- The `os.makedirs("logs", exist_ok=True)` call. -/
  | mkdirLogsDir : LaunchAction
  /-- Opening `logs/background.log` in append mode. -/
  | openLogFile : LaunchAction
  /-- Spawning the detached worker (new session, output redirected). -/
  | spawnWorker : Int → LaunchAction
  /-- Writing the worker's pid to the Job Descriptor Store. -/
  | savePid : Int → LaunchAction
  /-- Blocking until the worker exits.  The source never performs this:
  `Popen` returns immediately and no `wait()` is called. -/
  | waitForWorker : Int → LaunchAction
  /-- The informational prints announcing the launch, lines 222–231. -/
  | announce : Int → LaunchAction
deriving Repr, DecidableEq

/-- Selects descriptor-write actions, to count them. -/
def isSavePidAction : LaunchAction → Bool
  | .savePid _ => true
  | _ => false

/-- Selects worker-wait actions, to show the launcher never blocks on
the worker. -/
def isWaitAction : LaunchAction → Bool
  | .waitForWorker _ => true
  | _ => false

/-- Embeds `_launch_background_download`, `cli.py` lines 181–231 (the
launch proper: mkdir, open log, spawn, save pid, announce).  Returns the
outcome, the descriptor store afterwards, and the trace of effects.  A
failure at any step propagates and skips everything after it.  The
subsequent hand-off to live log following (lines 233–234) is the
interactive session's follow phase, modelled separately by
`_stream_background_log`. -/
def _launch_background_download (env : LaunchEnv) (s : PidStore) :
    Except LaunchError Int × PidStore × List LaunchAction :=
  match env.mkdirLogs with
  | .error _ => (.error .mkdirFailed, s, [])
  | .ok _ =>
      match env.openLog with
      | .error _ => (.error .openLogFailed, s, [.mkdirLogsDir])
      | .ok _ =>
          match env.spawn with
          | .error _ => (.error .spawnFailed, s, [.mkdirLogsDir, .openLogFile])
          | .ok pid =>
              (.ok pid, _save_background_pid pid s,
                [.mkdirLogsDir, .openLogFile, .spawnWorker pid, .savePid pid, .announce pid])

/-! ## Playlist range computation -/

/-- Embeds `PlaylistDownloader._determine_range`, `downloader.py` lines
47–90.  `probe` is the outcome of the flat-extraction size probe:
`none` models the `except` branch (the probe raised, size undeterminable)
and `some entries` the successful `info.get("entries", []) or []` list
(entries themselves carry no data the range needs).  Returns the
`(playliststart, playlistend)` pair, `playlistend = none` meaning "no
end bound" (download the whole playlist). -/
def _determine_range (probe : Option (List Unit)) (last_videos_count : Int) :
    Int × Option Int :=
  if last_videos_count ≤ 0 then (1, none)
  else
    let total_items : Option Nat := probe.map List.length
    match total_items with
    | some t =>
        if t ≤ 0 then (1, none)
        else
          let limited_count : Int := min last_videos_count (t : Int)
          (1, if limited_count > 0 then some limited_count else none)
    | none =>
        let limited_count : Int := last_videos_count
        (1, if limited_count > 0 then some limited_count else none)

/-! ## Helper lemmas -/

/-- The effective follower never modifies the descriptor store and never
signals any process, whatever the events. -/
theorem stream_background_log_store_kills (events : List FollowEvent) (pid : Int)
    (s : PidStore) :
    (_stream_background_log events pid s).store = s ∧
    (_stream_background_log events pid s).kills = [] := by
  induction events with
  | nil => exact ⟨rfl, rfl⟩
  | cons e rest ih =>
      cases e with
      | interrupt => exact ⟨rfl, rfl⟩
      | lineRead l => simpa [_stream_background_log] using ih
      | noLineRunning => simpa [_stream_background_log] using ih
      | noLineExited rem => exact ⟨rfl, rfl⟩

/-! ## Claim theorems -/

/-- C1: the claim states that when the worker has exited and no further
line is available, the follower drains and prints the remaining content,
prints the completion notice, clears the Job Descriptor Store for the
worker's pid, and returns.  The follower that actually runs is the
SECOND `_stream_background_log` definition (`cli.py` 297–317), which
Python binds over the first (`cli.py` 237–258); evaluated at a run whose
process has already exited, it drains, prints the notice and finishes,
but leaves the descriptor holding the worker's pid — only the shadowed
first definition clears it.  The claim's clearing step therefore does
not happen in the code as written. -/
theorem stream_log_exit_descriptor_divergence :
    _stream_background_log [.noLineExited "tail"] 4321 ⟨some "4321"⟩ =
      ⟨[.line "tail", .doneNotice], ⟨some "4321"⟩, [], .finished⟩ ∧
    _stream_background_log_v1 [.noLineExited "tail"] 4321 ⟨some "4321"⟩ =
      ⟨[.line "tail", .doneNotice], ⟨none⟩, [], .finished⟩ := by
  decide

/-- C2: the claim states that in all three signalling outcomes, clearing
the descriptor is the final step and the interactive session returns
normally to the menu.  Evaluating `cancel_background_download` on a live
resolved pid shows that after the `finally` clause clears the
descriptor, the stray code at `cli.py` 293–294 prints the follow banner
and then raises `NameError` (unbound `background_log`/`proc`), which the
menu loop in `main` does not catch — the session does not return
normally in any of the three outcomes. -/
theorem cancel_background_download_raises_name_error :
    (cancel_background_download ⟨some "4321"⟩ "" .ok .ok =
      ⟨⟨none⟩, [.cancelled 4321, .followBanner], .raisedNameError⟩) ∧
    (cancel_background_download ⟨some "4321"⟩ "" .ok .noSuchProcess).exitKind =
      .raisedNameError ∧
    (cancel_background_download ⟨some "4321"⟩ "" .ok .permissionDenied).exitKind =
      .raisedNameError := by
  decide

/-- C3: for every valid positive integer `p`, `save(p)` followed by
`load()` on the Job Descriptor Store returns `p`. -/
theorem save_then_load_returns_pid (p : Int) (s : PidStore) (_hp : 0 < p) :
    _load_background_pid (_save_background_pid p s) = some p := by
  unfold _load_background_pid _save_background_pid
  exact pyIntS_pyStr p

/-- Witness for C3 at `p = 3`. -/
theorem save_then_load_returns_pid_witness :
    _load_background_pid (_save_background_pid 3 ⟨none⟩) = some 3 :=
  save_then_load_returns_pid 3 ⟨none⟩ (by decide)

/-- Unfolding lemma: `clear` on an existing file with an expected pid
reduces to the parse-and-compare guard. -/
theorem clear_background_pid_some (p : Int) (c : String) :
    _clear_background_pid (some p) ⟨some c⟩ =
      match pyIntS c with
      | some current_pid => if current_pid ≠ p then ⟨some c⟩ else ⟨none⟩
      | none => ⟨none⟩ := rfl

/-- C4: with the store holding `q ≠ p`, `clear(expected_pid=p)` is a
no-op; with the store holding `p`, it removes the store file. -/
theorem clear_expected_pid_guard (p q : Int) (hpq : p ≠ q) :
    _clear_background_pid (some p) ⟨some (pyStr q)⟩ = ⟨some (pyStr q)⟩ ∧
    _clear_background_pid (some p) ⟨some (pyStr p)⟩ = ⟨none⟩ := by
  constructor
  · rw [clear_background_pid_some, pyIntS_pyStr]
    exact if_pos (Ne.symm hpq)
  · rw [clear_background_pid_some, pyIntS_pyStr]
    simp

/-- Witness for C4 at `p = 1`, `q = 2`. -/
theorem clear_expected_pid_guard_witness :
    _clear_background_pid (some 1) ⟨some (pyStr 2)⟩ = ⟨some (pyStr 2)⟩ ∧
    _clear_background_pid (some 1) ⟨some (pyStr 1)⟩ = ⟨none⟩ :=
  clear_expected_pid_guard 1 2 (by decide)

/-- C5: the liveness check reports a nonexistent process as dead, and
reports both a signalable process and a permission-denied probe as
alive. -/
theorem process_alive_policy :
    _process_alive .noSuchProcess = false ∧
    _process_alive .ok = true ∧
    _process_alive .permissionDenied = true := by
  decide

/-- C6: if directory creation, log opening or spawning fails, the error
propagates and the descriptor store is untouched (no descriptor write in
the trace); if the launch succeeds, the result is the spawned pid, the
trace contains exactly one descriptor write (of that pid) and no
wait-for-worker step, and the store holds the spawned pid. -/
theorem launch_descriptor_discipline (s : PidStore) (pid : Int)
    (o : Except Unit Unit) (sp : Except Unit Int) :
    (_launch_background_download ⟨.error (), o, sp⟩ s = (.error .mkdirFailed, s, [])) ∧
    (_launch_background_download ⟨.ok (), .error (), sp⟩ s =
      (.error .openLogFailed, s, [.mkdirLogsDir])) ∧
    (_launch_background_download ⟨.ok (), .ok (), .error ()⟩ s =
      (.error .spawnFailed, s, [.mkdirLogsDir, .openLogFile])) ∧
    ((_launch_background_download ⟨.ok (), .ok (), .ok pid⟩ s).1 = .ok pid ∧
      (_launch_background_download ⟨.ok (), .ok (), .ok pid⟩ s).2.1 =
        _save_background_pid pid s ∧
      ((_launch_background_download ⟨.ok (), .ok (), .ok pid⟩ s).2.2.filter
        isSavePidAction) = [.savePid pid] ∧
      ((_launch_background_download ⟨.ok (), .ok (), .ok pid⟩ s).2.2.filter
        isWaitAction) = []) := by
  refine ⟨rfl, rfl, rfl, rfl, rfl, ?_, ?_⟩ <;>
    simp [_launch_background_download, isSavePidAction, isWaitAction, List.filter]

/-- C7: with a determinable playlist size and a positive requested
count, the range end is the minimum of the requested count and the
playlist size (clamped, not padded). -/
theorem determine_range_clamps (entries : List Unit) (lvc : Int)
    (hl : 0 < lvc) (he : 0 < entries.length) :
    _determine_range (some entries) lvc = (1, some (min lvc (entries.length : Int))) := by
  unfold _determine_range
  rw [if_neg (by omega)]
  simp only [Option.map_some']
  rw [if_neg (by omega)]
  have hpos : (0 : Int) < min lvc (entries.length : Int) :=
    lt_min hl (by exact_mod_cast he)
  rw [if_pos hpos]

/-- Witness for C7: requested count 5 on a playlist of 3 items is
clamped to 3. -/
theorem determine_range_clamps_witness :
    _determine_range (some [(), (), ()]) 5 = (1, some 3) := by
  have h := determine_range_clamps [(), (), ()] 5 (by decide) (by decide)
  simpa using h

/-- C8: a follower run that the user interrupts leaves the descriptor
store unchanged and signals no process (the worker is untouched). -/
theorem stream_interrupt_frame (events : List FollowEvent) (pid : Int) (s : PidStore)
    (_h : (_stream_background_log events pid s).outcome = .interrupted) :
    (_stream_background_log events pid s).store = s ∧
    (_stream_background_log events pid s).kills = [] :=
  stream_background_log_store_kills events pid s

/-- Witness for C8: an interrupt on the first iteration. -/
theorem stream_interrupt_frame_witness :
    (_stream_background_log [.interrupt] 7 ⟨some "7"⟩).store = ⟨some "7"⟩ ∧
    (_stream_background_log [.interrupt] 7 ⟨some "7"⟩).kills = [] :=
  stream_interrupt_frame [.interrupt] 7 ⟨some "7"⟩ (by decide)

/-- C9: when the descriptor file exists but its contents do not parse as
an integer, `clear(expected_pid=p)` still deletes the file for every
`p`: the mismatch guard is skipped on parse failure. -/
theorem clear_unparsable_descriptor (p : Int) (c : String)
    (h : pyIntS c = none) :
    _clear_background_pid (some p) ⟨some c⟩ = ⟨none⟩ := by
  rw [clear_background_pid_some, h]

/-- Witness for C9 at `p = 5` with contents `"abc"`. -/
theorem clear_unparsable_descriptor_witness :
    _clear_background_pid (some 5) ⟨some "abc"⟩ = ⟨none⟩ :=
  clear_unparsable_descriptor 5 "abc" (by decide)

/-- C10: when the playlist-size probe raises and the requested count is
positive, the requested count is used unclamped as the range end. -/
theorem determine_range_probe_failure_unclamped (lvc : Int) (h : 0 < lvc) :
    _determine_range none lvc = (1, some lvc) := by
  unfold _determine_range
  rw [if_neg (by omega)]
  simp only [Option.map_none']
  rw [if_pos (by omega)]

/-- Witness for C10 at requested count 7. -/
theorem determine_range_probe_failure_unclamped_witness :
    _determine_range none 7 = (1, some 7) :=
  determine_range_probe_failure_unclamped 7 (by decide)
